import Mathlib

/- Formal model of the procedural scene generator in src/main.py.

   Machine floats are modelled as elements of a linear ordered field K.
   The two transcendental ingredients of the source, math.pow (used with
   exponent 2.4 in the sRGB transfer function) and math.pi (used by
   math.radians), are passed in as explicit parameters `rpow` and `pi`,
   so every definition stays executable; theorems instantiate K := ℝ
   with the genuine real power function where the claim needs them, and
   witnesses instantiate K := ℚ with concrete data. -/

section RngModel

variable {K : Type} [LinearOrderedField K]

/-- State of Python's `random` module after seeding: a deterministic
stream of `random.random()` draws together with a cursor.  For a fixed
seed the stream is a fixed function; all randomized helpers in
src/main.py consume draws from this single process-wide generator. -/
structure Rng (K : Type) where
  stream : Nat → K
  idx : Nat

/-- The documented contract of `random.random()`: every draw lies in
the half-open interval [0, 1). -/
def validStream (f : Nat → K) : Prop := ∀ n, 0 ≤ f n ∧ f n < 1

/-- One draw of `random.random()`. -/
def Rng.next (r : Rng K) : K × Rng K := (r.stream r.idx, ⟨r.stream, r.idx + 1⟩)

/-- `random.uniform(a, b) = a + (b - a) * random.random()` (CPython's
definition of `uniform`). -/
def random_uniform (a b : K) (r : Rng K) : K × Rng K :=
  let p := r.next
  (a + (b - a) * p.1, p.2)

/-- `random.randint(0, 1)`: one underlying draw mapped onto {0, 1};
both outcomes are reachable and the result is a deterministic function
of the generator state. -/
def random_randint01 (r : Rng K) : Nat × Rng K :=
  let p := r.next
  (if p.1 < 1/2 then 0 else 1, p.2)

end RngModel

section Geometry

variable {K : Type}

/-- A 3-component vector (Blender's Vector / Euler triple). -/
structure Vec3 (K : Type) where
  x : K
  y : K
  z : K
deriving DecidableEq

/-- Reading `v[i]` for i in 0, 1, 2 (Python indexes rotation_euler by
an integer axis index; the source only ever uses 0, 1, 2 via Axis). -/
def Vec3.get (v : Vec3 K) (i : Fin 3) : K :=
  if i = 0 then v.x else if i = 1 then v.y else v.z

/-- Writing `v[i] = a`. -/
def Vec3.set (v : Vec3 K) (i : Fin 3) (a : K) : Vec3 K :=
  if i = 0 then { v with x := a } else if i = 1 then { v with y := a } else { v with z := a }

/-- The state of a scene object that the generation core manipulates:
its per-axis rotation (radians), its scale, and the rotations already
baked into the mesh data by `bpy.ops.object.transform_apply`. -/
structure Obj (K : Type) where
  rotation_euler : Vec3 K
  scale : Vec3 K
  baked_rotations : List (Vec3 K)
deriving DecidableEq

-- Axis indices, src/main.py class Axis.
namespace Axis

def X : Fin 3 := 0

def Y : Fin 3 := 1

def Z : Fin 3 := 2

end Axis

end Geometry

section Animation

variable {K : Type} [LinearOrderedField K]

variable (pi : K)

/-- `math.radians(deg) = deg * pi / 180`. -/
def radians (deg : K) : K := deg * pi / 180

/-- Extrapolation mode of the inserted F-curve: `set_fcurve_extrapolation_to_linear`
sets LINEAR; otherwise Blender's default CONSTANT (hold) applies. -/
inductive Extrapolation where
  | hold : Extrapolation
  | linear : Extrapolation
deriving DecidableEq

/-- Result of `animate_rotation`: the mutated object, the two keyframes
inserted on the chosen rotation axis, and the extrapolation mode. -/
structure RotAnim (K : Type) where
  obj : Obj K
  keyframes : List (Int × K)
  extrapolation : Extrapolation
deriving DecidableEq

/-- Model of `animate_rotation` (src/main.py:262-297).  The source
inserts a keyframe at `start_frame` with the object's current angle on
`axis_index`, adds `math.radians(angle_offset)` (negated when
`clockwise` is truthy) to `rotation_euler[axis_index]`, inserts a
second keyframe at `last_frame` with the new angle, and sets linear
extrapolation when `linear` is true.  The `obj=None → active_object()`
default is replaced by an explicit object argument.  Note the source
performs no validation of the frame range. -/
def animate_rotation (angle : K) (axis_index : Fin 3) (last_frame : Int)
    (obj : Obj K) (clockwise : Bool) (linear : Bool) (start_frame : Int) : RotAnim K :=
  let kf_start : Int × K := (start_frame, obj.rotation_euler.get axis_index)
  let angle_offset : K := if clockwise then -angle else angle
  let new_angle : K := radians pi angle_offset + obj.rotation_euler.get axis_index
  { obj := { obj with rotation_euler := obj.rotation_euler.set axis_index new_angle },
    keyframes := [kf_start, (last_frame, new_angle)],
    extrapolation := if linear then Extrapolation.linear else Extrapolation.hold }

/-- Model of `animate_360_rotation` (src/main.py:300-308). -/
def animate_360_rotation (axis_index : Fin 3) (last_frame : Int) (obj : Obj K)
    (clockwise : Bool) (linear : Bool) (start_frame : Int) : RotAnim K :=
  animate_rotation pi 360 axis_index last_frame obj clockwise linear start_frame

end Animation

section HexParsing

/-- Hex digits accepted by Python's base-16 integer parsing:
0-9 (codepoints 48-57), a-f (97-102), A-F (65-70). -/
def is_hex_digit (c : Char) : Bool :=
  decide ((48 ≤ c.toNat ∧ c.toNat ≤ 57) ∨ (97 ≤ c.toNat ∧ c.toNat ≤ 102) ∨
    (65 ≤ c.toNat ∧ c.toNat ≤ 70))

/-- Numeric value of a hex digit. -/
def hex_digit_val (c : Char) : Nat :=
  if 48 ≤ c.toNat ∧ c.toNat ≤ 57 then c.toNat - 48
  else if 97 ≤ c.toNat ∧ c.toNat ≤ 102 then c.toNat - 87
  else if 65 ≤ c.toNat ∧ c.toNat ≤ 70 then c.toNat - 55
  else 0

/-- The ASCII whitespace stripped by Python's `int(str, base)`.
CPython also maps Unicode whitespace (e.g. U+00A0) to a space before
parsing; this definition covers the ASCII fragment only, and every
theorem below applies it only to ASCII inputs, where the two agree. -/
def py_isspace (c : Char) : Bool :=
  decide (c.toNat = 32 ∨ c.toNat = 9 ∨ c.toNat = 10 ∨ c.toNat = 13 ∨
    c.toNat = 11 ∨ c.toNat = 12)

/-- Digits after the first one: a single underscore is allowed between
two digits (Python's digit-group separator), never leading, trailing or
doubled. -/
def hex_digits_rest (acc : Nat) : List Char → Option Nat
  | [] => some acc
  | c :: rest =>
    if c = '_' then
      match rest with
      | [] => none
      | d :: rest2 =>
        if is_hex_digit d then hex_digits_rest (16 * acc + hex_digit_val d) rest2 else none
    else if is_hex_digit c then hex_digits_rest (16 * acc + hex_digit_val c) rest else none

/-- A nonempty run of hex digits (underscores only between digits). -/
def hex_digits : List Char → Option Nat
  | [] => none
  | c :: rest => if is_hex_digit c then hex_digits_rest (hex_digit_val c) rest else none

/-- The digit part after an optional single sign. -/
def python_int16_core (l : List Char) : Option Int :=
  match l with
  | [] => none
  | c :: rest =>
    if c = '+' then (hex_digits rest).map Int.ofNat
    else if c = '-' then (hex_digits rest).map (fun n => -(n : Int))
    else (hex_digits (c :: rest)).map Int.ofNat

/-- Model of the ASCII fragment of Python's `int(s, 16)` on the
two-character slices taken by `hex_color_to_rgb`: surrounding
whitespace is stripped, then an optional sign, then a nonempty run of
hex digits.  CPython first maps Unicode decimal digits and Unicode
whitespace to their ASCII counterparts (so e.g. a fullwidth digit is
accepted there but rejected here), and also accepts an `0x` prefix
(which no two-character slice can complete).  This definition is
therefore exact only on ASCII slices, and every theorem below uses it
only on such inputs: hex-digit pairs and an explicit all-ASCII
counterexample. -/
def python_int16 (l : List Char) : Option Int :=
  python_int16_core (((l.dropWhile py_isspace).reverse.dropWhile py_isspace).reverse)

end HexParsing

section Colors

variable {K : Type} [LinearOrderedField K]

variable (rpow : K → K → K)

/-- A Linear RGB triple. -/
structure Color3 (K : Type) where
  r : K
  g : K
  b : K
deriving DecidableEq

/-- A Linear RGB triple with alpha. -/
structure Color4 (K : Type) where
  r : K
  g : K
  b : K
  a : K
deriving DecidableEq

/-- Model of `convert_srgb_to_linear_rgb` (src/main.py:240-259): the
piecewise sRGB transfer function, `c / 12.92` for `c ≤ 0.04045` and
`((c + 0.055) / 1.055) ** 2.4` otherwise.  The source performs no
range validation on its input. -/
def convert_srgb_to_linear_rgb (srgb_color_component : K) : K :=
  if srgb_color_component ≤ 0.04045 then srgb_color_component / 12.92
  else rpow ((srgb_color_component + 0.055) / 1.055) 2.4

/-- `if hex_color.startswith("#"): hex_color = hex_color[1:]`
(src/main.py:196-197). -/
def strip_hash (l : List Char) : List Char :=
  if l.head? = some '#' then l.tail else l

/-- Model of `hex_color_to_rgb` (src/main.py:181-216): strip one
leading `#`, assert the length is 6 (an AssertionError and a ValueError
from `int` are both modelled as `none`), parse the three 2-character
slices with `int(_, 16)`, divide each by 255 and apply the transfer
function. -/
def hex_color_to_rgb (hex_color : List Char) : Option (Color3 K) :=
  let h := strip_hash hex_color
  if h.length = 6 then
    match python_int16 (h.take 2), python_int16 ((h.drop 2).take 2),
        python_int16 ((h.drop 4).take 2) with
    | some red, some green, some blue =>
      some ⟨convert_srgb_to_linear_rgb rpow ((red : K) / 255),
            convert_srgb_to_linear_rgb rpow ((green : K) / 255),
            convert_srgb_to_linear_rgb rpow ((blue : K) / 255)⟩
    | _, _, _ => none
  else none

/-- Model of `hex_color_to_rgba` (src/main.py:219-236). -/
def hex_color_to_rgba (hex_color : List Char) (alpha : K) : Option (Color4 K) :=
  (hex_color_to_rgb rpow hex_color).map fun c => ⟨c.r, c.g, c.b, alpha⟩

/-- The fixed 14-swatch palette of `get_random_color` (src/main.py:431-454). -/
def color_palette : List (List Char) :=
  ["#FC766A".toList, "#5B84B1".toList, "#5F4B8B".toList, "#E69A8D".toList,
   "#42EADD".toList, "#CDB599".toList, "#00A4CC".toList, "#F95700".toList,
   "#00203F".toList, "#ADEFD1".toList, "#606060".toList, "#D6ED17".toList,
   "#ED2B33".toList, "#D85A7F".toList]

end Colors

section ColorsChoice

variable {K : Type} [LinearOrderedField K] [FloorRing K]

variable (rpow : K → K → K)

/-- `random.choice(seq)`: one underlying draw mapped to an index below
the list length. -/
def random_choice (l : List (List Char)) (r : Rng K) : List Char × Rng K :=
  let p := r.next
  (l.getD (Int.toNat ⌊p.1 * (l.length : K)⌋) [], p.2)

/-- Model of `get_random_color` (src/main.py:431-454): a uniformly
chosen palette swatch converted via `hex_color_to_rgba` with the
default alpha 1.0.  Every palette entry parses, so the fallback color
is never used. -/
def get_random_color (r : Rng K) : Color4 K × Rng K :=
  let p := random_choice color_palette r
  ((hex_color_to_rgba rpow p.1 1).getD ⟨0, 0, 0, 1⟩, p.2)

end ColorsChoice

section Materials

variable {K : Type} [LinearOrderedField K]

/-- A reflective material: the data set by `create_reflective_material`
(src/main.py:384-421). -/
structure Material (K : Type) where
  name : String
  color : Color4 K
  roughness : K
  specular : K
deriving DecidableEq

/-- Model of `create_reflective_material` (src/main.py:384-421). -/
def create_reflective_material (color : Color4 K) (name : String)
    (roughness specular : K) : Material K :=
  { name := "material.reflective." ++ name, color := color,
    roughness := roughness, specular := specular }

end Materials

section Placement

variable {K : Type} [LinearOrderedField K] [FloorRing K]

variable (pi : K) (rpow : K → K → K)

/-- Model of `apply_rotation` (src/main.py:311-315):
`bpy.ops.object.transform_apply(rotation=True)` bakes the current
rotation into the mesh data and resets `rotation_euler` to zero. -/
def apply_rotation (obj : Obj K) : Obj K :=
  { obj with rotation_euler := ⟨0, 0, 0⟩,
             baked_rotations := obj.baked_rotations ++ [obj.rotation_euler] }

/-- Model of `apply_random_rotation` (src/main.py:319-327): three
independent uniform draws in [0, 360) converted to radians, one per
axis, then baked with `apply_rotation`. -/
def apply_random_rotation (obj : Obj K) (r : Rng K) : Obj K × Rng K :=
  let px := random_uniform (0 : K) 360 r
  let py := random_uniform (0 : K) 360 px.2
  let pz := random_uniform (0 : K) 360 py.2
  (apply_rotation { obj with
      rotation_euler := ⟨radians pi px.1, radians pi py.1, radians pi pz.1⟩ }, pz.2)

/-- A path for metaballs to follow: the curve object, its traversal
duration in frames, and the rotation-sweep keyframes placed on it. -/
structure PathData (K : Type) where
  obj : Obj K
  path_duration : Int
  rot_keyframes : List (Int × K)
  rot_extrapolation : Extrapolation
deriving DecidableEq

/-- Model of `create_metaball_path` (src/main.py:625-655): a bezier
circle (identity transform) whose `path_duration` is the frame count,
animated through a full 360-degree sweep about the X axis with a
randomly drawn direction (`clockwise=random.randint(0, 1)`, truthy when
1), randomly re-oriented and baked, and finally given an elliptical
bias: one of the two horizontal axes, chosen by `random.randint(0, 1)`,
has its scale multiplied by `random.uniform(0.05, 0.5)`. -/
def create_metaball_path (frame_count : Int) (r : Rng K) : PathData K × Rng K :=
  let path : Obj K := { rotation_euler := ⟨0, 0, 0⟩, scale := ⟨1, 1, 1⟩, baked_rotations := [] }
  let pcw := random_randint01 r
  let anim := animate_360_rotation pi Axis.X frame_count path (pcw.1 != 0) true 1
  let prot := apply_random_rotation pi anim.obj pcw.2
  let ppick := random_randint01 prot.2
  let pfac := random_uniform (0.05 : K) 0.5 ppick.2
  let obj := prot.1
  let obj :=
    if ppick.1 != 0 then { obj with scale := { obj.scale with x := obj.scale.x * pfac.1 } }
    else { obj with scale := { obj.scale with y := obj.scale.y * pfac.1 } }
  ({ obj := obj, path_duration := frame_count, rot_keyframes := anim.keyframes,
     rot_extrapolation := anim.extrapolation }, pfac.2)

/-- A metaball primitive: its scale, render resolution, the duration of
the follow-path constraint binding it to its path, and the materials on
its own datablock. -/
structure Ball (K : Type) where
  scale : Vec3 K
  render_resolution : K
  follow_path_duration : Int
  materials : List (Material K)
deriving DecidableEq

/-- Model of `create_metaball` (src/main.py:658-676): a metaball with
render resolution 0.05, uniformly scaled by one draw from
`random.uniform(0.05, 0.5)` (the default scale is (1,1,1)), bound to
the given path with a follow-path constraint.  No material is attached
here. -/
def create_metaball (path : PathData K) (r : Rng K) : Ball K × Rng K :=
  let p := random_uniform (0.05 : K) 0.5 r
  ({ scale := ⟨p.1, p.1, p.1⟩, render_resolution := 0.05,
     follow_path_duration := path.path_duration, materials := [] }, p.2)

/-- One centerpiece element: a path and the metaball following it. -/
structure Element (K : Type) where
  path : PathData K
  ball : Ball K
deriving DecidableEq

/-- The `for _ in range(metaball_count)` loop of `create_centerpiece`:
each iteration creates a path and then a metaball on it. -/
def centerpiece_loop (frame_count : Int) : Nat → Rng K → List (Element K) × Rng K
  | 0, r => ([], r)
  | Nat.succ n, r =>
    let pp := create_metaball_path pi frame_count r
    let pb := create_metaball pp.1 pp.2
    let rest := centerpiece_loop frame_count n pb.2
    ({ path := pp.1, ball := pb.1 } :: rest.1, rest.2)

/-- `metaball_count = 10` (src/main.py:689). -/
def metaball_count : Nat := 10

/-- Model of `apply_metaball_material` (src/main.py:614-622): one
random color is drawn, one reflective material is created from it, and
that single material is appended to `bpy.data.metaballs[0]`, the first
created metaball datablock (the primary metaball of the family, through
which Blender renders the whole merged blob group). -/
def apply_metaball_material (elems : List (Element K)) (r : Rng K) :
    (List (Element K) × Material K) × Rng K :=
  let pc := get_random_color rpow r
  let material := create_reflective_material pc.1 "metaball" 0.1 0.5
  let elems2 :=
    match elems with
    | [] => []
    | e :: rest =>
      { e with ball := { e.ball with materials := e.ball.materials ++ [material] } } :: rest
  ((elems2, material), pc.2)

/-- The whole centerpiece: its elements and the single material created
for the group. -/
structure Centerpiece (K : Type) where
  elements : List (Element K)
  material : Material K
deriving DecidableEq

/-- Model of `create_centerpiece` (src/main.py:679-696): ten
path-plus-metaball pairs, then one shared material application. -/
def create_centerpiece (frame_count : Int) (r : Rng K) : Centerpiece K × Rng K :=
  let pl := centerpiece_loop pi frame_count metaball_count r
  let pm := apply_metaball_material rpow pl.1 pl.2
  ({ elements := pm.1.1, material := pm.1.2 }, pm.2)

/-- The scale bias `create_metaball_path` puts on a path: exactly one
of the two horizontal axes carries a factor in [0.05, 0.5), the other
stays 1. -/
def scale_bias_ok (e : Element K) : Prop :=
  (1/20 ≤ e.path.obj.scale.x ∧ e.path.obj.scale.x < 1/2 ∧ e.path.obj.scale.y = 1) ∨
  (1/20 ≤ e.path.obj.scale.y ∧ e.path.obj.scale.y < 1/2 ∧ e.path.obj.scale.x = 1)

end Placement

section Scene

variable {K : Type} [LinearOrderedField K] [FloorRing K]

variable (pi : K) (rpow : K → K → K)

/-- The background ring of `create_background` (src/main.py:699-709):
a bezier circle of radius 1.5 with an emission material of energy 30
in a random color. -/
structure Background (K : Type) where
  radius : K
  render_resolution_u : Nat
  bevel_depth : K
  color : Color4 K
  energy : K
deriving DecidableEq

/-- Model of `create_background` (src/main.py:699-709). -/
def create_background (r : Rng K) : Background K × Rng K :=
  let pc := get_random_color rpow r
  ({ radius := 1.5, render_resolution_u := 64, bevel_depth := 0.05,
     color := pc.1, energy := 30 }, pc.2)

/-- The area light of `add_light` (src/main.py:566-573). -/
structure Light (K : Type) where
  location : Vec3 K
  radius : K
  energy : K
  color : Color3 K
deriving DecidableEq

/-- Model of `add_light` (src/main.py:566-573): a disk area light of
energy 100 at (0, 0, 2) whose color is the RGB part of a random
palette color. -/
def add_light (r : Rng K) : Light K × Rng K :=
  let pc := get_random_color rpow r
  ({ location := ⟨0, 0, 2⟩, radius := 1, energy := 100,
     color := ⟨pc.1.r, pc.1.g, pc.1.b⟩ }, pc.2)

/-- The scene description produced by one run of the generator: frame
data, the fixed camera placement of `scene_setup`, the centerpiece, the
background and the light. -/
structure SceneDescription (K : Type) where
  fps : Int
  frame_count : Int
  camera_location : Vec3 K
  camera_rotation : Vec3 K
  centerpiece : Centerpiece K
  background : Background K
  light : Light K
deriving DecidableEq

/-- The random-content part of `main` (src/main.py:712-717) after the
generator has been seeded: `frame_count = fps * loop_seconds`
(src/main.py:531-533), the fixed camera of `scene_setup`
(src/main.py:555-557), then `create_centerpiece`, `create_background`
and `add_light` drawing from the random stream in that order.
(`apply_glare_composite_effect` draws nothing.) -/
def compose_scene (fps loop_seconds : Int) (r : Rng K) : SceneDescription K × Rng K :=
  let frame_count := fps * loop_seconds
  let pcp := create_centerpiece pi rpow frame_count r
  let pbg := create_background rpow pcp.2
  let plt := add_light rpow pbg.2
  ({ fps := fps, frame_count := frame_count,
     camera_location := ⟨0, 0, 7⟩, camera_rotation := ⟨0, 0, 0⟩,
     centerpiece := pcp.1, background := pbg.1, light := plt.1 }, plt.2)

end Scene

section Seeding

variable {K : Type} [LinearOrderedField K]

/-- The ambient process state the seeding code interacts with: the
wall-clock time and the `random` module's generator.  `mt` below is the
fixed deterministic map from a seed value to the generator's stream
(CPython's Mersenne Twister initialization). -/
structure World (K : Type) where
  clock : K
  rng : Rng K

/-- `random.seed(s)`: the generator stream becomes a fixed function of
the seed value alone. -/
def random_seed (mt : K → Nat → K) (s : K) (w : World K) : World K :=
  { w with rng := { stream := mt s, idx := 0 } }

/-- Model of `time_seed` (src/main.py:78-93): the seed is the current
wall-clock time; it seeds the generator and is returned (the clipboard
copy is an external side channel). -/
def time_seed (mt : K → Nat → K) (w : World K) : K × World K :=
  (w.clock, { w with rng := { stream := mt w.clock, idx := 0 } })

/-- The hard-coded `seed = 0` of `scene_setup` (src/main.py:540). -/
def scene_setup_seed : Int := 0

/-- The seeding logic of `scene_setup` (src/main.py:540-544):
`if seed: random.seed(seed) else: time_seed()` — Python truthiness of
the integer `seed` means the first branch runs exactly when
`seed ≠ 0`. -/
def scene_setup_seeding (mt : K → Nat → K) (w : World K) : World K :=
  if scene_setup_seed ≠ 0 then random_seed mt ((scene_setup_seed : Int) : K) w
  else (time_seed mt w).2

end Seeding


/- ------------------------------------------------------------------ -/
/- Theorems.                                                          -/
/- ------------------------------------------------------------------ -/

theorem Vec3.get_set_same {K : Type} (v : Vec3 K) (i : Fin 3) (a : K) :
    (v.set i a).get i = a := by
  fin_cases i <;> simp [Vec3.get, Vec3.set]

theorem Vec3.get_set_other {K : Type} (v : Vec3 K) (i j : Fin 3) (a : K) (h : j ≠ i) :
    (v.set i a).get j = v.get j := by
  fin_cases i <;> fin_cases j <;> simp_all [Vec3.get, Vec3.set]

/-- A concrete object used to instantiate theorems about `animate_rotation`:
starting angle 5 on the X axis, unit scale. -/
def objX5 : Obj ℚ := { rotation_euler := ⟨5, 0, 0⟩, scale := ⟨1, 1, 1⟩, baked_rotations := [] }

/-- Claim C2: for every object with starting rotation θ₀ on the chosen
axis and every startFrame < endFrame, `animate_rotation` produces
exactly the two keyframes (startFrame, θ₀) and
(endFrame, θ₀ + radians(angle)), with the negative sign when clockwise
is true; and radians(360) = 2π, so with totalAngleDeg = 360 the second
keyframe is θ₀ ± 2π. -/
theorem animate_rotation_two_keyframes {K : Type} [LinearOrderedField K]
    (pi angle : K) (axis_index : Fin 3) (last_frame : Int) (obj : Obj K)
    (clockwise linear : Bool) (start_frame : Int)
    (h : start_frame < last_frame) :
    (animate_rotation pi angle axis_index last_frame obj clockwise linear start_frame).keyframes =
      [(start_frame, obj.rotation_euler.get axis_index),
       (last_frame, obj.rotation_euler.get axis_index +
          (if clockwise then -(radians pi angle) else radians pi angle))] ∧
    radians pi 360 = 2 * pi := by
  constructor
  · cases clockwise <;> simp [animate_rotation, radians] <;> ring
  · rw [radians, mul_comm (360 : K) pi, mul_div_assoc]
    norm_num [mul_comm]

/-- Witness for C2 at a concrete input: θ₀ = 5, angle 360, frames 1 to
360, counter-clockwise, with pi instantiated to the rational 3 (so
radians 360 = 6 and the final angle is 5 + 6 = 11). -/
theorem animate_rotation_two_keyframes_witness :
    (1 : Int) < 360 ∧
    (animate_rotation (3 : ℚ) 360 Axis.X 360 objX5 false true 1).keyframes =
      [(1, 5), (360, 11)] := by
  have h := animate_rotation_two_keyframes (3 : ℚ) 360 Axis.X 360 objX5 false true 1 (by decide)
  refine ⟨by decide, ?_⟩
  rw [h.1]
  norm_num [radians, objX5, Vec3.get, Axis.X]

/-- Claim C4 (counterexample): with endFrame = 3 ≤ startFrame = 5 the
source `animate_rotation` does not fail: it returns a normal result
whose keyframes are (5, θ₀) and (3, θ₀ + radians 360), merely out of
frame order.  There is no frame-range check anywhere in the function. -/
theorem animate_rotation_inverted_succeeds :
    (3 : Int) ≤ 5 ∧
    (animate_rotation (3 : ℚ) 360 Axis.X 3 objX5 false true 5).keyframes = [(5, 5), (3, 11)] := by
  constructor
  · decide
  · norm_num [animate_rotation, radians, objX5, Vec3.get, Axis.X]

/-- Claim C4 (amended): `animate_rotation` performs no frame-range
validation: for endFrame ≤ startFrame it succeeds all the same,
producing the keyframes (startFrame, θ₀) and (endFrame, θ₀ ± radians(angle))
with non-increasing frame order. -/
theorem animate_rotation_no_validation {K : Type} [LinearOrderedField K]
    (pi angle : K) (axis_index : Fin 3) (last_frame : Int) (obj : Obj K)
    (clockwise linear : Bool) (start_frame : Int)
    (h : last_frame ≤ start_frame) :
    (animate_rotation pi angle axis_index last_frame obj clockwise linear start_frame).keyframes =
      [(start_frame, obj.rotation_euler.get axis_index),
       (last_frame, obj.rotation_euler.get axis_index +
          (if clockwise then -(radians pi angle) else radians pi angle))] := by
  cases clockwise <;> simp [animate_rotation, radians] <;> ring

/-- Witness for the amended C4 at a concrete inverted range (5 down to 3),
clockwise, about Y. -/
theorem animate_rotation_no_validation_witness :
    (3 : Int) ≤ 5 ∧
    (animate_rotation (3 : ℚ) 360 Axis.Y 3 objX5 true true 5).keyframes = [(5, 0), (3, -6)] := by
  have h := animate_rotation_no_validation (3 : ℚ) 360 Axis.Y 3 objX5 true true 5 (by decide)
  refine ⟨by decide, ?_⟩
  rw [h]
  norm_num [radians, objX5, Vec3.get, Axis.Y]

/-- Claim C10: `animate_rotation` mutates its object: after the call the
rotation on `axis_index` equals its prior value plus radians(angle)
(minus when clockwise), and the other two axes are unchanged. -/
theorem animate_rotation_mutates_rotation {K : Type} [LinearOrderedField K]
    (pi angle : K) (axis_index : Fin 3) (last_frame : Int) (obj : Obj K)
    (clockwise linear : Bool) (start_frame : Int) :
    ((animate_rotation pi angle axis_index last_frame obj clockwise linear start_frame).obj.rotation_euler.get axis_index =
      obj.rotation_euler.get axis_index +
        (if clockwise then -(radians pi angle) else radians pi angle)) ∧
    (∀ j : Fin 3, j ≠ axis_index →
      (animate_rotation pi angle axis_index last_frame obj clockwise linear start_frame).obj.rotation_euler.get j =
        obj.rotation_euler.get j) := by
  constructor
  · cases clockwise <;>
      simp [animate_rotation, Vec3.get_set_same, radians] <;> ring
  · intro j hj
    cases clockwise <;> simp [animate_rotation, Vec3.get_set_other _ _ _ _ hj]

/-- Witness for C10 at a concrete input: rotating 360 degrees about X
(with pi := 3) updates the X angle from 5 to 11 and leaves the Y angle
at 0. -/
theorem animate_rotation_mutates_rotation_witness :
    ((animate_rotation (3 : ℚ) 360 Axis.X 360 objX5 false true 1).obj.rotation_euler.get Axis.X = 11) ∧
    ((animate_rotation (3 : ℚ) 360 Axis.X 360 objX5 false true 1).obj.rotation_euler.get Axis.Y = 0) := by
  have h := animate_rotation_mutates_rotation (3 : ℚ) 360 Axis.X 360 objX5 false true 1
  constructor
  · rw [h.1]
    norm_num [radians, objX5, Vec3.get, Axis.X]
  · rw [h.2 Axis.Y (by decide)]
    norm_num [objX5, Vec3.get, Axis.Y]

/-- Claim C9: in `scene_setup` the explicit-seeding branch is
unreachable: `seed` is the literal 0, which is falsy, so every run
takes the `time_seed` branch and the generator stream is always a
function of the wall clock; a seed of 0 can never trigger
`random.seed(seed)` through `scene_setup`. -/
theorem scene_setup_always_time_seeds {K : Type} [LinearOrderedField K]
    (mt : K → Nat → K) (w : World K) :
    scene_setup_seeding mt w = (time_seed mt w).2 ∧
    (scene_setup_seeding mt w).rng = { stream := mt w.clock, idx := 0 } := by
  constructor
  · simp [scene_setup_seeding, scene_setup_seed]
  · simp [scene_setup_seeding, scene_setup_seed, time_seed]

/-- Claim C1: once the random stream is seeded with a fixed value s,
the composed scene is fully determined by s (and the fixed parameters):
two runs from two arbitrary ambient worlds — in particular with
different wall-clock values — produce identical SceneDescriptions,
because after `random.seed(s)` no part of the composition reads
anything but the seeded stream. -/
theorem compose_scene_deterministic {K : Type} [LinearOrderedField K] [FloorRing K]
    (pi : K) (rpow : K → K → K) (mt : K → Nat → K) (s : K)
    (fps loop_seconds : Int) (w1 w2 : World K) :
    (compose_scene pi rpow fps loop_seconds (random_seed mt s w1).rng).1 =
      (compose_scene pi rpow fps loop_seconds (random_seed mt s w2).rng).1 := rfl

theorem hex_digit_not_space {c : Char} (h : is_hex_digit c = true) : py_isspace c = false := by
  simp only [is_hex_digit, decide_eq_true_eq] at h
  simp only [py_isspace, decide_eq_false_iff_not]
  omega

theorem hex_digit_ne_plus {c : Char} (h : is_hex_digit c = true) : c ≠ '+' := by
  intro e
  subst e
  exact absurd h (by decide)

theorem hex_digit_ne_minus {c : Char} (h : is_hex_digit c = true) : c ≠ '-' := by
  intro e
  subst e
  exact absurd h (by decide)

theorem hex_digit_ne_underscore {c : Char} (h : is_hex_digit c = true) : c ≠ '_' := by
  intro e
  subst e
  exact absurd h (by decide)

theorem hex_digit_ne_hash {c : Char} (h : is_hex_digit c = true) : c ≠ '#' := by
  intro e
  subst e
  exact absurd h (by decide)

/-- Two hex digits always parse as a base-16 integer. -/
theorem python_int16_pair {c0 c1 : Char} (h0 : is_hex_digit c0 = true)
    (h1 : is_hex_digit c1 = true) :
    python_int16 [c0, c1] = some (Int.ofNat (16 * hex_digit_val c0 + hex_digit_val c1)) := by
  have s0 := hex_digit_not_space h0
  have s1 := hex_digit_not_space h1
  have p0 := hex_digit_ne_plus h0
  have m0 := hex_digit_ne_minus h0
  have u1 := hex_digit_ne_underscore h1
  simp [python_int16, List.dropWhile, s0, s1, python_int16_core, p0, m0,
    hex_digits, h0, hex_digits_rest, u1, h1]

/-- Claim C5 (counterexample): the length-6 string "+1+1+1" contains
characters that are not hex digits, yet `hex_color_to_rgb` succeeds on
it, because Python's `int(s, 16)` accepts a leading sign in each
two-character slice.  The input is pure ASCII, on which the slice
parser model is exact.  So the function does not fail exactly on
{length ≠ 6 or some character not a hex digit}. -/
theorem hex_color_to_rgb_accepts_plus_string :
    is_hex_digit '+' = false ∧
    (strip_hash ['+', '1', '+', '1', '+', '1']).length = 6 ∧
    (hex_color_to_rgb (K := ℚ) (fun _ _ => 0) ['+', '1', '+', '1', '+', '1']).isSome = true := by
  refine ⟨by decide, by decide, ?_⟩
  simp only [hex_color_to_rgb,
    show strip_hash ['+', '1', '+', '1', '+', '1'] = ['+', '1', '+', '1', '+', '1'] from rfl]
  rw [if_pos (show (['+', '1', '+', '1', '+', '1'] : List Char).length = 6 from rfl),
    show List.take 2 (['+', '1', '+', '1', '+', '1'] : List Char) = ['+', '1'] from rfl,
    show List.take 2 (List.drop 2 (['+', '1', '+', '1', '+', '1'] : List Char)) = ['+', '1']
      from rfl,
    show List.take 2 (List.drop 4 (['+', '1', '+', '1', '+', '1'] : List Char)) = ['+', '1']
      from rfl,
    show python_int16 ['+', '1'] = some 1 from by decide]
  rfl

/-- Claim C5 (amended): `hex_color_to_rgb` fails whenever the length
after stripping one leading '#' is not 6 (the assert precedes any
parsing), and succeeds on every length-6 string of hex digits; but
failure is not exactly characterized by "some character is not a hex
digit": the counterexample "+1+1+1" contains non-hex characters and
still succeeds, because `int(_, 16)` accepts sign-decorated slices.
Both directions proved here stay on inputs where the slice parser
model coincides with CPython. -/
theorem hex_color_to_rgb_length_and_hex {K : Type} [LinearOrderedField K]
    (rpow : K → K → K) (l : List Char) :
    ((strip_hash l).length ≠ 6 → hex_color_to_rgb rpow l = none) ∧
    ((strip_hash l).length = 6 →
      (∀ c ∈ strip_hash l, is_hex_digit c = true) →
      (hex_color_to_rgb rpow l).isSome = true) := by
  constructor
  · intro hlen
    simp only [hex_color_to_rgb]
    rw [if_neg hlen]
  · intro hlen hhex
    rcases hl : strip_hash l with _ | ⟨c0, l1⟩
    · rw [hl] at hlen
      simp at hlen
    rcases l1 with _ | ⟨c1, l2⟩
    · rw [hl] at hlen
      simp at hlen
    rcases l2 with _ | ⟨c2, l3⟩
    · rw [hl] at hlen
      simp at hlen
    rcases l3 with _ | ⟨c3, l4⟩
    · rw [hl] at hlen
      simp at hlen
    rcases l4 with _ | ⟨c4, l5⟩
    · rw [hl] at hlen
      simp at hlen
    rcases l5 with _ | ⟨c5, l6⟩
    · rw [hl] at hlen
      simp at hlen
    rcases l6 with _ | ⟨c6, l7⟩
    swap
    · rw [hl] at hlen
      simp at hlen
    rw [hl] at hhex
    have h0 : is_hex_digit c0 = true := hhex c0 (by simp)
    have h1 : is_hex_digit c1 = true := hhex c1 (by simp)
    have h2 : is_hex_digit c2 = true := hhex c2 (by simp)
    have h3 : is_hex_digit c3 = true := hhex c3 (by simp)
    have h4 : is_hex_digit c4 = true := hhex c4 (by simp)
    have h5 : is_hex_digit c5 = true := hhex c5 (by simp)
    simp only [hex_color_to_rgb, hl]
    rw [if_pos (show ([c0, c1, c2, c3, c4, c5] : List Char).length = 6 from rfl),
      show List.take 2 ([c0, c1, c2, c3, c4, c5] : List Char) = [c0, c1] from rfl,
      show List.take 2 (List.drop 2 ([c0, c1, c2, c3, c4, c5] : List Char)) = [c2, c3] from rfl,
      show List.take 2 (List.drop 4 ([c0, c1, c2, c3, c4, c5] : List Char)) = [c4, c5] from rfl,
      python_int16_pair h0 h1, python_int16_pair h2 h3, python_int16_pair h4 h5]
    rfl

/-- Witness for the amended C5: the length direction at the
two-character list "FF" and the sufficiency direction at the six hex
digits "012345". -/
theorem hex_color_to_rgb_length_and_hex_witness :
    ((strip_hash ['F', 'F']).length ≠ 6 ∧
     hex_color_to_rgb (K := ℚ) (fun _ _ => 0) ['F', 'F'] = none) ∧
    ((strip_hash ['0', '1', '2', '3', '4', '5']).length = 6 ∧
     (∀ c ∈ strip_hash ['0', '1', '2', '3', '4', '5'], is_hex_digit c = true) ∧
     (hex_color_to_rgb (K := ℚ) (fun _ _ => 0) ['0', '1', '2', '3', '4', '5']).isSome = true) :=
  ⟨⟨by decide,
    (hex_color_to_rgb_length_and_hex (K := ℚ) (fun _ _ => 0) ['F', 'F']).1 (by decide)⟩,
   ⟨by decide, by decide,
    (hex_color_to_rgb_length_and_hex (K := ℚ) (fun _ _ => 0) ['0', '1', '2', '3', '4', '5']).2
      (by decide) (by decide)⟩⟩

/-- Claim C8 (counterexample): the source performs no range validation:
on the out-of-range input -1, `convert_srgb_to_linear_rgb` does not
fail, it returns the value -1 / 12.92 — a negative "color". -/
theorem convert_srgb_negative_input_returns :
    convert_srgb_to_linear_rgb (fun x y : ℝ => x ^ y) (-1 : ℝ) = -1 / 12.92 ∧
    convert_srgb_to_linear_rgb (fun x y : ℝ => x ^ y) (-1 : ℝ) < 0 := by
  rw [convert_srgb_to_linear_rgb, if_pos (by norm_num : (-1 : ℝ) ≤ 0.04045)]
  norm_num

/-- Claim C8 (amended): `convert_srgb_to_linear_rgb` rejects nothing:
out-of-range inputs are fed through the same piecewise formula, with
c < 0 giving the (negative) value c / 12.92 and c > 1 giving the power
branch; in-range inputs likewise always produce a value. -/
theorem convert_srgb_no_range_check (c : ℝ) :
    (c < 0 → convert_srgb_to_linear_rgb (fun x y : ℝ => x ^ y) c = c / 12.92 ∧
      convert_srgb_to_linear_rgb (fun x y : ℝ => x ^ y) c < 0) ∧
    (1 < c → convert_srgb_to_linear_rgb (fun x y : ℝ => x ^ y) c =
      ((c + 0.055) / 1.055) ^ (2.4 : ℝ)) := by
  constructor
  · intro hc
    rw [convert_srgb_to_linear_rgb, if_pos (by linarith : c ≤ 0.04045)]
    exact ⟨rfl, div_neg_of_neg_of_pos hc (by norm_num)⟩
  · intro hc
    rw [convert_srgb_to_linear_rgb, if_neg (by linarith : ¬c ≤ 0.04045)]

/-- Witness for the amended C8 at the concrete out-of-range inputs -1
and 2. -/
theorem convert_srgb_no_range_check_witness :
    ((-1 : ℝ) < 0 ∧ convert_srgb_to_linear_rgb (fun x y : ℝ => x ^ y) (-1 : ℝ) = -1 / 12.92) ∧
    ((1 : ℝ) < 2 ∧ convert_srgb_to_linear_rgb (fun x y : ℝ => x ^ y) (2 : ℝ) =
      ((2 + 0.055) / 1.055) ^ (2.4 : ℝ)) :=
  ⟨⟨by norm_num, ((convert_srgb_no_range_check (-1)).1 (by norm_num)).1⟩,
   ⟨by norm_num, (convert_srgb_no_range_check 2).2 (by norm_num)⟩⟩

/-- At the branch point the power branch dominates the linear branch:
0.04045 / 12.92 ≤ ((0.04045 + 0.055) / 1.055) ^ 2.4.  The two sides
agree to about four parts in a million, so this is settled by comparing
the exact rational powers (fifth and twelfth). -/
theorem srgb_junction :
    (0.04045 : ℝ) / 12.92 ≤ ((0.04045 + 0.055) / 1.055) ^ (2.4 : ℝ) := by
  have ha : (0 : ℝ) ≤ (0.04045 + 0.055) / 1.055 := by norm_num
  have h1 : ((((0.04045 + 0.055) / 1.055 : ℝ)) ^ (2.4 : ℝ)) ^ (5 : ℕ) =
      ((0.04045 + 0.055) / 1.055 : ℝ) ^ (12 : ℕ) := by
    rw [← Real.rpow_natCast ((((0.04045 + 0.055) / 1.055 : ℝ)) ^ (2.4 : ℝ)) 5,
      ← Real.rpow_mul ha, ← Real.rpow_natCast (((0.04045 + 0.055) / 1.055 : ℝ)) 12]
    norm_num
  have key : ((0.04045 : ℝ) / 12.92) ^ (5 : ℕ) ≤
      ((((0.04045 + 0.055) / 1.055 : ℝ)) ^ (2.4 : ℝ)) ^ (5 : ℕ) := by
    rw [h1]
    norm_num
  exact le_of_pow_le_pow_left₀ (by norm_num) (Real.rpow_nonneg ha _) key

/-- Claim C7: `convert_srgb_to_linear_rgb` maps 0 to exactly 0 and 1 to
exactly 1, and is monotonically non-decreasing on [0, 1]. -/
theorem convert_srgb_endpoints_monotone :
    convert_srgb_to_linear_rgb (fun x y : ℝ => x ^ y) 0 = 0 ∧
    convert_srgb_to_linear_rgb (fun x y : ℝ => x ^ y) 1 = 1 ∧
    ∀ x y : ℝ, 0 ≤ x → x ≤ y → y ≤ 1 →
      convert_srgb_to_linear_rgb (fun x y : ℝ => x ^ y) x ≤
        convert_srgb_to_linear_rgb (fun x y : ℝ => x ^ y) y := by
  refine ⟨?_, ?_, ?_⟩
  · rw [convert_srgb_to_linear_rgb, if_pos (by norm_num : (0 : ℝ) ≤ 0.04045)]
    norm_num
  · rw [convert_srgb_to_linear_rgb, if_neg (by norm_num : ¬(1 : ℝ) ≤ 0.04045)]
    have h : ((1 : ℝ) + 0.055) / 1.055 = 1 := by norm_num
    show (((1 : ℝ) + 0.055) / 1.055) ^ (2.4 : ℝ) = 1
    rw [h, Real.one_rpow]
  · intro x y hx hxy hy1
    rw [convert_srgb_to_linear_rgb, convert_srgb_to_linear_rgb]
    by_cases hxt : x ≤ 0.04045 <;> by_cases hyt : y ≤ 0.04045
    · rw [if_pos hxt, if_pos hyt]
      gcongr
    · rw [if_pos hxt, if_neg hyt]
      have h1 : x / 12.92 ≤ (0.04045 : ℝ) / 12.92 := by gcongr
      have h2 := srgb_junction
      have h3 : (((0.04045 : ℝ) + 0.055) / 1.055) ^ (2.4 : ℝ) ≤
          ((y + 0.055) / 1.055) ^ (2.4 : ℝ) := by
        apply Real.rpow_le_rpow (by norm_num) ?_ (by norm_num)
        gcongr
        linarith
      show x / 12.92 ≤ ((y + 0.055) / 1.055) ^ (2.4 : ℝ)
      linarith
    · exact absurd (hxy.trans hyt) hxt
    · rw [if_neg hxt, if_neg hyt]
      show ((x + 0.055) / 1.055) ^ (2.4 : ℝ) ≤ ((y + 0.055) / 1.055) ^ (2.4 : ℝ)
      apply Real.rpow_le_rpow ?_ ?_ (by norm_num)
      · apply div_nonneg ?_ (by norm_num)
        linarith
      · gcongr

/-- Witness for C7: the monotonicity applied at the concrete endpoints
x = 0, y = 1, together with the endpoint hypotheses. -/
theorem convert_srgb_endpoints_monotone_witness :
    (0 : ℝ) ≤ 0 ∧ (0 : ℝ) ≤ 1 ∧ (1 : ℝ) ≤ 1 ∧
    convert_srgb_to_linear_rgb (fun x y : ℝ => x ^ y) 0 ≤
      convert_srgb_to_linear_rgb (fun x y : ℝ => x ^ y) 1 :=
  ⟨le_refl 0, by norm_num, le_refl 1,
    convert_srgb_endpoints_monotone.2.2 0 1 (le_refl 0) (by norm_num) (le_refl 1)⟩

/-- Claim C6: on [0, 1] the transfer function is `c / 12.92` for
`c ≤ 0.04045` and `((c + 0.055) / 1.055) ^ 2.4` otherwise; and on any
six hex digits, `hex_color_to_rgb` splits them into three 2-digit
components, normalizes each by 255 and applies the transfer function
componentwise. -/
theorem srgb_transfer_and_hex_decomposition :
    (∀ c : ℝ, 0 ≤ c → c ≤ 1 →
      ((c ≤ 0.04045 → convert_srgb_to_linear_rgb (fun x y : ℝ => x ^ y) c = c / 12.92) ∧
       (¬c ≤ 0.04045 → convert_srgb_to_linear_rgb (fun x y : ℝ => x ^ y) c =
          ((c + 0.055) / 1.055) ^ (2.4 : ℝ)))) ∧
    (∀ c0 c1 c2 c3 c4 c5 : Char,
      is_hex_digit c0 = true → is_hex_digit c1 = true → is_hex_digit c2 = true →
      is_hex_digit c3 = true → is_hex_digit c4 = true → is_hex_digit c5 = true →
      hex_color_to_rgb (fun x y : ℝ => x ^ y) [c0, c1, c2, c3, c4, c5] =
        some ⟨convert_srgb_to_linear_rgb (fun x y : ℝ => x ^ y)
                (((16 * hex_digit_val c0 + hex_digit_val c1 : ℕ) : ℝ) / 255),
              convert_srgb_to_linear_rgb (fun x y : ℝ => x ^ y)
                (((16 * hex_digit_val c2 + hex_digit_val c3 : ℕ) : ℝ) / 255),
              convert_srgb_to_linear_rgb (fun x y : ℝ => x ^ y)
                (((16 * hex_digit_val c4 + hex_digit_val c5 : ℕ) : ℝ) / 255)⟩) := by
  constructor
  · intro c _ _
    constructor
    · intro hc
      rw [convert_srgb_to_linear_rgb, if_pos hc]
    · intro hc
      rw [convert_srgb_to_linear_rgb, if_neg hc]
  · intro c0 c1 c2 c3 c4 c5 h0 h1 h2 h3 h4 h5
    have hhash := hex_digit_ne_hash h0
    rw [hex_color_to_rgb]
    have hs : strip_hash [c0, c1, c2, c3, c4, c5] = [c0, c1, c2, c3, c4, c5] := by
      simp [strip_hash, hhash]
    rw [hs]
    have ht1 : ([c0, c1, c2, c3, c4, c5].take 2) = [c0, c1] := rfl
    have ht2 : (([c0, c1, c2, c3, c4, c5].drop 2).take 2) = [c2, c3] := rfl
    have ht3 : (([c0, c1, c2, c3, c4, c5].drop 4).take 2) = [c4, c5] := rfl
    rw [if_pos (show ([c0, c1, c2, c3, c4, c5] : List Char).length = 6 from rfl), ht1, ht2, ht3,
      python_int16_pair h0 h1, python_int16_pair h2 h3, python_int16_pair h4 h5]
    simp

/-- Witness for C6 at concrete inputs: the linear branch at 0.02 and
the hex string "FFFFFF". -/
theorem srgb_transfer_and_hex_decomposition_witness :
    ((0 : ℝ) ≤ 0.02 ∧ (0.02 : ℝ) ≤ 1 ∧ (0.02 : ℝ) ≤ 0.04045 ∧
      convert_srgb_to_linear_rgb (fun x y : ℝ => x ^ y) 0.02 = 0.02 / 12.92) ∧
    (is_hex_digit 'F' = true ∧
      hex_color_to_rgb (fun x y : ℝ => x ^ y) ['F', 'F', 'F', 'F', 'F', 'F'] =
        some ⟨convert_srgb_to_linear_rgb (fun x y : ℝ => x ^ y)
                (((16 * hex_digit_val 'F' + hex_digit_val 'F' : ℕ) : ℝ) / 255),
              convert_srgb_to_linear_rgb (fun x y : ℝ => x ^ y)
                (((16 * hex_digit_val 'F' + hex_digit_val 'F' : ℕ) : ℝ) / 255),
              convert_srgb_to_linear_rgb (fun x y : ℝ => x ^ y)
                (((16 * hex_digit_val 'F' + hex_digit_val 'F' : ℕ) : ℝ) / 255)⟩) :=
  ⟨⟨by norm_num, by norm_num, by norm_num,
    (srgb_transfer_and_hex_decomposition.1 0.02 (by norm_num) (by norm_num)).1 (by norm_num)⟩,
   ⟨by decide,
    srgb_transfer_and_hex_decomposition.2 'F' 'F' 'F' 'F' 'F' 'F'
      (by decide) (by decide) (by decide) (by decide) (by decide) (by decide)⟩⟩

/-- The generator emerging from `create_metaball_path` carries the same
stream, advanced by the six draws made. -/
theorem create_metaball_path_rng {K : Type} [LinearOrderedField K]
    (pi : K) (fc : Int) (r : Rng K) :
    (create_metaball_path pi fc r).2 = ⟨r.stream, r.idx + 1 + 1 + 1 + 1 + 1 + 1⟩ := rfl

/-- `create_metaball` makes one draw. -/
theorem create_metaball_rng {K : Type} [LinearOrderedField K]
    (path : PathData K) (r : Rng K) :
    (create_metaball path r).2 = ⟨r.stream, r.idx + 1⟩ := rfl

/-- `create_metaball` attaches no material to the new metaball. -/
theorem create_metaball_materials {K : Type} [LinearOrderedField K]
    (path : PathData K) (r : Rng K) :
    (create_metaball path r).1.materials = [] := rfl

/-- The elliptical bias of `create_metaball_path`: exactly one of the
two horizontal axes is scaled by the uniform draw, which lies in
[0.05, 0.5) whenever the stream obeys the random() contract; the other
horizontal axis keeps scale 1. -/
theorem create_metaball_path_scale {K : Type} [LinearOrderedField K]
    (pi : K) (fc : Int) (r : Rng K) (hv : validStream r.stream) :
    (1/20 ≤ (create_metaball_path pi fc r).1.obj.scale.x ∧
     (create_metaball_path pi fc r).1.obj.scale.x < 1/2 ∧
     (create_metaball_path pi fc r).1.obj.scale.y = 1) ∨
    (1/20 ≤ (create_metaball_path pi fc r).1.obj.scale.y ∧
     (create_metaball_path pi fc r).1.obj.scale.y < 1/2 ∧
     (create_metaball_path pi fc r).1.obj.scale.x = 1) := by
  obtain ⟨h5a, h5b⟩ := hv (r.idx + 1 + 1 + 1 + 1 + 1)
  simp only [create_metaball_path, animate_360_rotation, animate_rotation,
    apply_random_rotation, apply_rotation, random_randint01, random_uniform, Rng.next]
  by_cases hp : r.stream (r.idx + 1 + 1 + 1 + 1) < 1/2
  · refine Or.inr ?_
    rw [if_pos hp, show ((0 : Nat) != 0) = false from rfl, if_neg Bool.false_ne_true]
    refine ⟨?_, ?_, ?_⟩ <;> norm_num <;> nlinarith [h5a, h5b]
  · refine Or.inl ?_
    rw [if_neg hp, show ((1 : Nat) != 0) = true from rfl, if_pos rfl]
    refine ⟨?_, ?_, ?_⟩ <;> norm_num <;> nlinarith [h5a, h5b]

/-- The loop of `create_centerpiece` produces one element per iteration. -/
theorem centerpiece_loop_length {K : Type} [LinearOrderedField K]
    (pi : K) (fc : Int) :
    ∀ (n : Nat) (r : Rng K), (centerpiece_loop pi fc n r).1.length = n := by
  intro n
  induction n with
  | zero => intro r; rfl
  | succ n ih => intro r; simp [centerpiece_loop, ih]

/-- Every element the loop produces satisfies the scale-bias property,
given the random() contract. -/
theorem centerpiece_loop_bias {K : Type} [LinearOrderedField K]
    (pi : K) (fc : Int) :
    ∀ (n : Nat) (r : Rng K), validStream r.stream →
      ∀ e ∈ (centerpiece_loop pi fc n r).1, scale_bias_ok e := by
  intro n
  induction n with
  | zero => intro r _ e he; simp [centerpiece_loop] at he
  | succ n ih =>
    intro r hv e he
    simp only [centerpiece_loop, List.mem_cons] at he
    rcases he with rfl | he
    · exact create_metaball_path_scale pi fc r hv
    · refine ih _ ?_ e he
      rw [create_metaball_rng, create_metaball_path_rng]
      exact hv

/-- No element the loop produces carries a material of its own. -/
theorem centerpiece_loop_materials {K : Type} [LinearOrderedField K]
    (pi : K) (fc : Int) :
    ∀ (n : Nat) (r : Rng K),
      ((centerpiece_loop pi fc n r).1.map fun e => e.ball.materials) = List.replicate n [] := by
  intro n
  induction n with
  | zero => intro r; rfl
  | succ n ih => intro r; simp [centerpiece_loop, ih, List.replicate_succ, create_metaball_materials]

/-- Unfolding one iteration of the centerpiece loop. -/
theorem centerpiece_loop_succ {K : Type} [LinearOrderedField K]
    (pi : K) (fc : Int) (n : Nat) (r : Rng K) :
    (centerpiece_loop pi fc (n + 1) r).1 =
      { path := (create_metaball_path pi fc r).1,
        ball := (create_metaball (create_metaball_path pi fc r).1
                  (create_metaball_path pi fc r).2).1 } ::
      (centerpiece_loop pi fc n
        (create_metaball (create_metaball_path pi fc r).1
          (create_metaball_path pi fc r).2).2).1 := rfl

/-- Claim C3 (amended): for every generator obeying the random()
contract, `create_centerpiece` produces exactly 10 elements; each
element's path has its non-uniform scale bias on exactly one axis drawn
from x and y, with a factor in [0.05, 0.5) (the left endpoint is
attainable, since random() can return 0.0); and a single material is
created, once, from a single palette draw made after the loop — it is
attached to the primary (first) metaball, through which the whole
family renders, and the other nine elements carry no material of their
own. -/
theorem create_centerpiece_spec {K : Type} [LinearOrderedField K] [FloorRing K]
    (pi : K) (rpow : K → K → K) (fc : Int) (r : Rng K) (hv : validStream r.stream) :
    (create_centerpiece pi rpow fc r).1.elements.length = 10 ∧
    (∀ e ∈ (create_centerpiece pi rpow fc r).1.elements, scale_bias_ok e) ∧
    (create_centerpiece pi rpow fc r).1.material =
      create_reflective_material
        (get_random_color rpow (centerpiece_loop pi fc metaball_count r).2).1
        "metaball" 0.1 0.5 ∧
    ((create_centerpiece pi rpow fc r).1.elements.map fun e => e.ball.materials) =
      [(create_centerpiece pi rpow fc r).1.material] :: List.replicate 9 [] := by
  have hlen := centerpiece_loop_length pi fc metaball_count r
  obtain ⟨e0, rest, hcons⟩ :
      ∃ e0 rest, (centerpiece_loop pi fc metaball_count r).1 = e0 :: rest := by
    rcases h : (centerpiece_loop pi fc metaball_count r).1 with _ | ⟨e0, rest⟩
    · rw [h] at hlen
      simp [metaball_count] at hlen
    · exact ⟨e0, rest, rfl⟩
  have hmats := centerpiece_loop_materials pi fc metaball_count r
  have hbias := centerpiece_loop_bias pi fc metaball_count r hv
  rw [hcons] at hlen hmats hbias
  have hc : (create_centerpiece pi rpow fc r).1 =
      { elements :=
          { e0 with ball := { e0.ball with materials := e0.ball.materials ++
              [create_reflective_material
                (get_random_color rpow (centerpiece_loop pi fc metaball_count r).2).1
                "metaball" 0.1 0.5] } } :: rest,
        material :=
          create_reflective_material
            (get_random_color rpow (centerpiece_loop pi fc metaball_count r).2).1
            "metaball" 0.1 0.5 } := by
    simp only [create_centerpiece, apply_metaball_material, hcons]
  rw [metaball_count] at hlen hmats
  simp only [List.length_cons, List.map_cons, List.replicate_succ, List.cons.injEq] at hlen hmats
  refine ⟨?_, ?_, ?_, ?_⟩
  · rw [hc]
    simp only [List.length_cons]
    omega
  · rw [hc]
    intro e he
    rcases List.mem_cons.mp he with rfl | he
    · have h0 := hbias e0 (List.mem_cons_self e0 rest)
      simp only [scale_bias_ok] at h0 ⊢
      exact h0
    · exact hbias e (List.mem_cons_of_mem e0 he)
  · rw [hc]
  · rw [hc]
    simp [List.map_cons, hmats.1, hmats.2]

/-- Witness for the amended C3: the theorem applied to the concrete
valid stream that always returns 1/2 (over ℚ, with pi := 0 and a trivial
power function, neither of which the placement math consults). -/
theorem create_centerpiece_spec_witness :
    validStream (fun _ : Nat => (1/2 : ℚ)) ∧
    ((create_centerpiece (0 : ℚ) (fun _ _ => (0 : ℚ)) 360 ⟨fun _ => 1/2, 0⟩).1.elements.length = 10 ∧
     (∀ e ∈ (create_centerpiece (0 : ℚ) (fun _ _ => (0 : ℚ)) 360 ⟨fun _ => 1/2, 0⟩).1.elements,
        scale_bias_ok e) ∧
     (create_centerpiece (0 : ℚ) (fun _ _ => (0 : ℚ)) 360 ⟨fun _ => 1/2, 0⟩).1.material =
       create_reflective_material
         (get_random_color (fun _ _ => (0 : ℚ))
           (centerpiece_loop (0 : ℚ) 360 metaball_count ⟨fun _ => 1/2, 0⟩).2).1
         "metaball" 0.1 0.5 ∧
     ((create_centerpiece (0 : ℚ) (fun _ _ => (0 : ℚ)) 360 ⟨fun _ => 1/2, 0⟩).1.elements.map
        fun e => e.ball.materials) =
       [(create_centerpiece (0 : ℚ) (fun _ _ => (0 : ℚ)) 360 ⟨fun _ => 1/2, 0⟩).1.material] ::
         List.replicate 9 []) :=
  ⟨fun _ => ⟨by norm_num, by norm_num⟩,
   create_centerpiece_spec (0 : ℚ) (fun _ _ => (0 : ℚ)) 360 ⟨fun _ => 1/2, 0⟩
     (fun _ => ⟨by norm_num, by norm_num⟩)⟩

/-- Claim C3 (counterexample): on the valid stream that always returns
0 — random() can return 0.0 — the first path's bias factor is exactly
0.05 = 1/20, which does not lie in the open interval (0.05, 0.5), so
the claimed strict bounds fail. -/
theorem create_centerpiece_bias_boundary :
    validStream (fun _ : Nat => (0 : ℚ)) ∧
    ((create_centerpiece (0 : ℚ) (fun _ _ => (0 : ℚ)) 360 ⟨fun _ => 0, 0⟩).1.elements.head?.map
        fun e => e.path.obj.scale.y) = some (1/20) ∧
    (1/20 : ℚ) ∉ Set.Ioo (0.05 : ℚ) (0.5 : ℚ) := by
  refine ⟨fun _ => ⟨le_refl 0, by norm_num⟩, ?_, by norm_num [Set.mem_Ioo]⟩
  have hpath : (create_metaball_path (0 : ℚ) 360 ⟨fun _ => 0, 0⟩).1.obj.scale.y = 1/20 := by
    norm_num [create_metaball_path, animate_360_rotation, animate_rotation,
      apply_random_rotation, apply_rotation, random_randint01, random_uniform, Rng.next]
  have h10 : (centerpiece_loop (0 : ℚ) 360 metaball_count ⟨fun _ => 0, 0⟩).1 =
      { path := (create_metaball_path (0 : ℚ) 360 ⟨fun _ => 0, 0⟩).1,
        ball := (create_metaball (create_metaball_path (0 : ℚ) 360 ⟨fun _ => 0, 0⟩).1
                  (create_metaball_path (0 : ℚ) 360 ⟨fun _ => 0, 0⟩).2).1 } ::
      (centerpiece_loop (0 : ℚ) 360 9
        (create_metaball (create_metaball_path (0 : ℚ) 360 ⟨fun _ => 0, 0⟩).1
          (create_metaball_path (0 : ℚ) 360 ⟨fun _ => 0, 0⟩).2).2).1 :=
    centerpiece_loop_succ (0 : ℚ) 360 9 ⟨fun _ => 0, 0⟩
  simp only [create_centerpiece, apply_metaball_material, h10, List.head?]
  simp [hpath]
